import Mathlib

/-!
Verification of the Activity-Relay inbox routing engine, administrative
unfollow handler, federation delay metrics and delivery statistics, as a
shallow embedding of the Go sources (`api/handle.go`, `api/stats.go`,
`delaymetrics/delaymetrics.go`).

Machine integers are modelled as `Int`/`Nat`; timestamps as Unix seconds
(`Int`).  External collaborators (remote fetch, time parsing, the Redis
store, URL host extraction) are oracle function parameters.  Repository
helpers that live outside the given source files (`executeFollowing`,
`executeUnfollowing`, `finalizeMutuallyFollow`, `executeRejectRequest`,
`executeRelayActivity`, `executeAnnounceActivity`,
`isActorSubscribersOrFollowers`, `isToMyFollower`, `UnwrapInnerActivity`,
`GenerateReply`, membership-store accessors) are modelled from the
specification, each marked `Modelled from the spec:` in its doc comment.
-/

namespace ActivityRelay

/-- An inner (nested) activity, as decoded out of the `object` of an
Undo/Accept/Reject. -/
structure InnerActivity where
  id : String
  typ : String
  actor : String
  objectStr : String
deriving Repr, DecidableEq

/-- The polymorphic `object` field of an activity: a bare URI string, an
embedded JSON object (with optional string `id` and `published` members and
an optional decoding as a nested inner activity), or anything else. -/
inductive ActivityObject where
  | strObj (s : String)
  | mapObj (idField : Option String) (publishedField : Option String)
      (innerField : Option InnerActivity)
  | otherObj
deriving Repr, DecidableEq

/-- A federation activity (`models.Activity`): `id`, `type`, `actor` URI,
polymorphic `object`, recipient lists `to`/`cc`, and the optional
`published` timestamp string (Go zero value `""` when absent). -/
structure Activity where
  id : String
  typ : String
  actor : String
  object : ActivityObject
  toList : List String
  ccList : List String
  published : String
deriving Repr, DecidableEq

/-- The resolved identity of a sender (`models.Actor`): actor ID, inbox
URL, and the host (domain) of the actor's server. -/
structure Actor where
  id : String
  inbox : String
  host : String
deriving Repr, DecidableEq

/-- A membership record (Subscriber or Follower): keyed by domain, holding
the id of the Follow activity that created it, the actor ID, the inbox URL,
and the pending/active flag. -/
structure Subscription where
  domain : String
  inboxURL : String
  activityID : String
  actorID : String
  pending : Bool
deriving Repr, DecidableEq

/-- The membership store: the two disjoint collections of Subscribers and
Followers (`RelayState.Subscribers` / `RelayState.Followers`). -/
structure RelayStateModel where
  subscribers : List Subscription
  followers : List Subscription
deriving Repr, DecidableEq

/-- Relay configuration relevant to follow admission: administratively
blocked domains and whether manual approval is configured. -/
structure Config where
  blockedDomains : List String
  manualApproval : Bool
deriving Repr, DecidableEq

/-- Modelled from the spec: the Reply builder (`GenerateReply`, models
package, not under src/) constructs a reply activity of the given type
addressed back to the sender, wrapping (and reusing the id of) the original
activity. -/
structure ReplyActivity where
  replyType : String
  original : Activity
deriving Repr, DecidableEq

/-- The payload of an outbound delivery job: the original activity bytes
unmodified (raw), a resolved original activity (Announce fan-out), or a
handshake reply activity. -/
inductive Payload where
  | raw (body : String)
  | resolved (a : Activity)
  | reply (r : ReplyActivity)
deriving Repr, DecidableEq

/-- A delivery job: destination inbox URL plus payload. -/
structure DeliveryJob where
  destination : String
  payload : Payload
deriving Repr, DecidableEq

/-- The well-known public-audience URI
`https://www.w3.org/ns/activitystreams#Public` (api/handle.go line 119). -/
def publicURI : String := "https://www.w3.org/ns/activitystreams#Public"

/-- Modelled from the spec: the `contains` helper of the api package (not
under src/) — whether a recipient list contains the given URI. -/
def contains (entries : List String) (s : String) : Bool :=
  entries.contains s

/-- Modelled from the spec: `isToMyFollower` (api package helper, not under
src/) — true when some recipient URI is the inbox-URI of a current
Follower. -/
def isToMyFollower (st : RelayStateModel) (entries : List String) : Bool :=
  entries.any (fun e => st.followers.any (fun f => f.inboxURL = e))

/-- Modelled from the spec: `isActorSubscribersOrFollowers` (api package
helper, not under src/) — the sender's host is the domain of a current
Subscriber or Follower. -/
def isActorSubscribersOrFollowers (st : RelayStateModel) (host : String) : Bool :=
  st.subscribers.any (fun s => s.domain = host) ||
    st.followers.any (fun f => f.domain = host)

/-- The three addressing dialects. -/
inductive Dialect where
  | publicBroadcast
  | relayDirected
  | unaddressed
deriving Repr, DecidableEq

/-- The addressing classification implemented by the outer switch of
`handleInbox` (api/handle.go lines 118–139, 231): first match wins —
public-audience URI in `to`/`cc` gives PublicBroadcast; otherwise the Relay
Actor's ID or a Follower inbox-URI in `to`/`cc` gives RelayDirected (the
relay-ID case falls through into the follower case); otherwise
Unaddressed. -/
def classify (relayActorID : String) (st : RelayStateModel) (a : Activity) : Dialect :=
  if contains a.toList publicURI || contains a.ccList publicURI then
    .publicBroadcast
  else if contains a.toList relayActorID || contains a.ccList relayActorID ||
      isToMyFollower st a.toList || isToMyFollower st a.ccList then
    .relayDirected
  else
    .unaddressed

/-- Modelled from the spec: `Activity.UnwrapInnerActivity` (models package,
not under src/) decodes the nested `object` of an Undo/Accept/Reject as an
inner activity, failing on malformed nesting. -/
def Activity.UnwrapInnerActivity (a : Activity) : Except String InnerActivity :=
  match a.object with
  | .mapObj _ _ (some inner) => .ok inner
  | _ => .error "failed to unwrap inner activity"

/-- Modelled from the spec: `executeRejectRequest` (api package, not under
src/) — the state machine replies with a Reject activity addressed back to
the sender, reusing the received Follow activity. -/
def executeRejectRequest (a : Activity) (actor : Actor) : DeliveryJob :=
  { destination := actor.inbox, payload := .reply ⟨"Reject", a⟩ }

/-- Modelled from the spec: `executeFollowing` (api package, not under
src/) — validates the sender (a Follow from an administratively blocked
domain fails without creating any record), otherwise creates a Subscriber
record (public-audience Follow object) or Follower record (otherwise) for
the sender's domain, pending when manual approval is configured, and
replies Accept when auto-approved. -/
def executeFollowing (cfg : Config) (st : RelayStateModel)
    (a : Activity) (actor : Actor) :
    Except String (RelayStateModel × List DeliveryJob) :=
  if cfg.blockedDomains.contains actor.host then
    .error "this domain is blocked"
  else
    let record : Subscription :=
      { domain := actor.host, inboxURL := actor.inbox, activityID := a.id,
        actorID := actor.id, pending := cfg.manualApproval }
    let replies : List DeliveryJob :=
      if cfg.manualApproval then []
      else [{ destination := actor.inbox, payload := .reply ⟨"Accept", a⟩ }]
    if a.object = .strObj publicURI then
      .ok ({ st with subscribers := record :: st.subscribers }, replies)
    else
      .ok ({ st with followers := record :: st.followers }, replies)

/-- Modelled from the spec: `executeUnfollowing` (api package, not under
src/) — Undo(Follow) deletes the matching record for the sender's domain,
with no reply. -/
def executeUnfollowing (st : RelayStateModel) (_inner : InnerActivity)
    (actor : Actor) : Except String RelayStateModel :=
  .ok { subscribers := st.subscribers.filter (fun s => s.domain ≠ actor.host),
        followers := st.followers.filter (fun f => f.domain ≠ actor.host) }

/-- Modelled from the spec: `finalizeMutuallyFollow` (api package, not
under src/) — an inbound Accept(Follow) finalizes the mutual follow
(pending → active) for the sender's domain; an inbound Reject(Follow)
removes the record unconditionally. -/
def finalizeMutuallyFollow (st : RelayStateModel) (_inner : InnerActivity)
    (actor : Actor) (mode : String) : RelayStateModel :=
  if mode = "Accept" then
    { st with followers := (st.followers.map
        (fun f => if f.domain = actor.host then { f with pending := false } else f)) }
  else
    { st with followers := st.followers.filter (fun f => f.domain ≠ actor.host) }

/-- Modelled from the spec: `executeRelayActivity` (api package, not under
src/) — PublicBroadcast fan-out: the sender must be a member (otherwise
an authorization error is surfaced); on success one job per active
Subscriber, with the original activity bytes unmodified as payload. -/
def executeRelayActivity (st : RelayStateModel) (_a : Activity)
    (actorHost : String) (body : String) : Except String (List DeliveryJob) :=
  if isActorSubscribersOrFollowers st actorHost then
    .ok ((st.subscribers.filter (fun s => !s.pending)).map
      (fun s => { destination := s.inboxURL, payload := .raw body }))
  else
    .error "to use the relay service, please follow in advance"

/-- Modelled from the spec: `executeAnnounceActivity` (api package, not
under src/) — the resolved original activity is broadcast to all active
Subscribers and Followers. -/
def executeAnnounceActivity (st : RelayStateModel) (orig : Activity)
    (_origActor : Actor) : List DeliveryJob :=
  ((st.subscribers.filter (fun s => !s.pending)) ++
      (st.followers.filter (fun f => !f.pending))).map
    (fun s => { destination := s.inboxURL, payload := .resolved orig })

/-- A federation delay record (`delaymetrics.DelayRecord`), with times in
Unix seconds. -/
structure DelayRecord where
  noteID : String
  createdAt : Int
  receivedAt : Int
  delaySeconds : Int
  instanceHost : String
deriving Repr, DecidableEq

/-- The first-success loop over the accepted timestamp formats
(api/handle.go lines 414–419): try each parse in order, stopping at the
first that succeeds. -/
def parseFirst (formats : List (String → Option Int)) (s : String) : Option Int :=
  match formats with
  | [] => none
  | f :: rest =>
    match f s with
    | some t => some t
    | none => parseFirst rest s

/-- `recordDelayMetrics` (api/handle.go lines 361–447): extract the
timestamp string (the activity's own `published` first, else the embedded
object's `published`) and the note id (object `id`, or the object string
itself, defaulting to the activity id); parse by the first matching format;
record only when the delay is within 0 to 86400 seconds.  The four format
parsers (RFC3339, RFC3339Nano, and the two literal layouts) are oracle
parameters. -/
def recordDelayMetrics (formats : List (String → Option Int))
    (a : Activity) (actorHost : String) (receivedAt : Int) : Option DelayRecord :=
  let createdAtStr0 := if a.published ≠ "" then a.published else ""
  let extracted : String × String :=
    match a.object with
    | .mapObj idField publishedField _ =>
      (if createdAtStr0 = "" then publishedField.getD "" else createdAtStr0,
        idField.getD "")
    | .strObj s => (createdAtStr0, s)
    | .otherObj => (createdAtStr0, "")
  let createdAtStr := extracted.1
  if createdAtStr = "" then none
  else
    let objectID := if extracted.2 = "" then a.id else extracted.2
    match parseFirst formats createdAtStr with
    | none => none
    | some createdAt =>
      let delaySeconds := receivedAt - createdAt
      if delaySeconds < 0 || delaySeconds > 86400 then none
      else
        some { noteID := objectID, createdAt := createdAt,
               receivedAt := receivedAt, delaySeconds := delaySeconds,
               instanceHost := actorHost }

/-- The observable outcome of one inbox request: HTTP status, optional
plain-text error body, resulting membership state, the delivery jobs
submitted, the remote-fetch URLs dereferenced, the mutual-follow
finalizations performed (domain, mode), and the delay record written by
the metrics side channel. -/
structure InboxResult where
  status : Nat
  respBody : Option String
  state : RelayStateModel
  jobs : List DeliveryJob
  fetches : List String
  finalized : List (String × String)
  delayRec : Option DelayRecord
deriving Repr, DecidableEq

/-- A result that only acknowledges: given status, no body, unchanged
state, no jobs, no fetches, no finalization. -/
def ackResult (status : Nat) (st : RelayStateModel) : InboxResult :=
  { status := status, respBody := none, state := st, jobs := [],
    fetches := [], finalized := [], delayRec := none }

/-- The Mastodon-traditional (PublicBroadcast) branch of `handleInbox`
(api/handle.go lines 119–135): Create/Update/Delete/Move relay the original
body (401 with error text on failure), every other type is acknowledged
with 202 and no fan-out. -/
def publicBroadcastBranch (st : RelayStateModel) (a : Activity)
    (actorHost : String) (body : String) : InboxResult :=
  if a.typ = "Create" || a.typ = "Update" || a.typ = "Delete" || a.typ = "Move" then
    match executeRelayActivity st a actorHost body with
    | .error e => { ackResult 401 st with respBody := some e }
    | .ok jobs => { ackResult 202 st with jobs := jobs }
  else
    ackResult 202 st

/-- The shared Follow handling of `handleInbox` (api/handle.go lines
142–148 and 234–240): run admission; on failure dispatch a Reject back to
the sender; acknowledge 202 either way. -/
def followCase (cfg : Config) (st : RelayStateModel) (a : Activity)
    (actor : Actor) : InboxResult :=
  match executeFollowing cfg st a actor with
  | .error _ => { ackResult 202 st with jobs := [executeRejectRequest a actor] }
  | .ok (st2, jobs) => { ackResult 202 st2 with jobs := jobs }

/-- The shared Undo handling of `handleInbox` (api/handle.go lines 149–168
and 241–260): unwrap the inner activity (202 no-op on failure); Undo(Follow)
unfollows (Reject reply on failure); other inner types are acknowledged. -/
def undoCase (st : RelayStateModel) (a : Activity) (actor : Actor) : InboxResult :=
  match a.UnwrapInnerActivity with
  | .error _ => ackResult 202 st
  | .ok inner =>
    if inner.typ = "Follow" then
      match executeUnfollowing st inner actor with
      | .error _ => { ackResult 202 st with jobs := [executeRejectRequest a actor] }
      | .ok st2 => ackResult 202 st2
    else
      ackResult 202 st

/-- The Accept/Reject handling of the LitePub branch of `handleInbox`
(api/handle.go lines 169–202): unwrap the inner activity (202 no-op on
failure); an inner Follow finalizes the mutual follow with the outer
activity's type as mode; other inner types are acknowledged. -/
def acceptRejectCase (st : RelayStateModel) (a : Activity) (actor : Actor) :
    InboxResult :=
  match a.UnwrapInnerActivity with
  | .error _ => ackResult 202 st
  | .ok inner =>
    if inner.typ = "Follow" then
      { ackResult 202 (finalizeMutuallyFollow st inner actor a.typ) with
        finalized := [(actor.host, a.typ)] }
    else
      ackResult 202 st

/-- The Announce handling of the LitePub branch of `handleInbox`
(api/handle.go lines 203–226): a non-member sender gets 401 with error
text and no jobs; a member sender with a bare-URI object triggers one
remote fetch (400 with error text if it fails) and fan-out of the resolved
original; a non-string object is skipped; acknowledged 202. -/
def announceCase (st : RelayStateModel) (a : Activity) (actorHost : String)
    (fetch : String → Except String (Activity × Actor)) : InboxResult :=
  if !(isActorSubscribersOrFollowers st actorHost) then
    { ackResult 401 st with
      respBody := some "to use the relay service, please follow in advance" }
  else
    match a.object with
    | .strObj u =>
      match fetch u with
      | .error e => { ackResult 400 st with respBody := some e, fetches := [u] }
      | .ok (orig, origActor) =>
        { ackResult 202 st with
          jobs := (executeAnnounceActivity st orig origActor), fetches := [u] }
    | _ => ackResult 202 st

/-- The LitePub relay-style (RelayDirected) branch of `handleInbox`
(api/handle.go lines 136–230). -/
def relayDirectedBranch (cfg : Config) (st : RelayStateModel) (a : Activity)
    (actor : Actor) (actorHost : String)
    (fetch : String → Except String (Activity × Actor)) : InboxResult :=
  if a.typ = "Follow" then followCase cfg st a actor
  else if a.typ = "Undo" then undoCase st a actor
  else if a.typ = "Accept" then acceptRejectCase st a actor
  else if a.typ = "Reject" then acceptRejectCase st a actor
  else if a.typ = "Announce" then announceCase st a actorHost fetch
  else ackResult 202 st

/-- The Follow/Unfollow-only (Unaddressed) branch of `handleInbox`
(api/handle.go lines 231–264): only Follow and Undo are processed; every
other type is acknowledged with 202 and no effect. -/
def unaddressedBranch (cfg : Config) (st : RelayStateModel) (a : Activity)
    (actor : Actor) : InboxResult :=
  if a.typ = "Follow" then followCase cfg st a actor
  else if a.typ = "Undo" then undoCase st a actor
  else ackResult 202 st

/-- The dialect dispatch of `handleInbox` on a decoded activity
(api/handle.go lines 118–265). -/
def handleInboxCore (cfg : Config) (relayActor : Actor) (st : RelayStateModel)
    (a : Activity) (actor : Actor) (actorHost : String) (body : String)
    (fetch : String → Except String (Activity × Actor)) : InboxResult :=
  match classify relayActor.id st a with
  | .publicBroadcast => publicBroadcastBranch st a actorHost body
  | .relayDirected => relayDirectedBranch cfg st a actor actorHost fetch
  | .unaddressed => unaddressedBranch cfg st a actor

/-- `handleInbox` (api/handle.go lines 101–271): a non-POST request gets
405; a POST whose body fails decoding gets 400; otherwise the delay-metrics
side channel runs and the decoded activity is dispatched by dialect.
`parseHost` models `url.Parse(activity.Actor).Host`, `fetch` models
`fetchOriginalActivityFromURL`, `formats` the accepted timestamp parsers,
`receivedAt` the receipt time, `decoded` the activity decoder's result. -/
def handleInbox (cfg : Config) (relayActor : Actor) (st : RelayStateModel)
    (parseHost : String → String)
    (fetch : String → Except String (Activity × Actor))
    (formats : List (String → Option Int)) (receivedAt : Int)
    (method : String)
    (decoded : Except String (Activity × Actor × String)) : InboxResult :=
  if method = "POST" then
    match decoded with
    | .error _ => ackResult 400 st
    | .ok (a, actor, body) =>
      let actorHost := parseHost a.actor
      let delayRec := recordDelayMetrics formats a actorHost receivedAt
      { handleInboxCore cfg relayActor st a actor actorHost body fetch with
        delayRec := delayRec }
  else
    ackResult 405 st

/-- Modelled from the spec: `RelayState.SelectSubscriber` (models package,
not under src/) — membership-store lookup of a Subscriber by domain. -/
def SelectSubscriber (st : RelayStateModel) (domain : String) : Option Subscription :=
  st.subscribers.find? (fun s => s.domain = domain)

/-- Modelled from the spec: `RelayState.SelectFollower` (models package,
not under src/) — membership-store lookup of a Follower by domain. -/
def SelectFollower (st : RelayStateModel) (domain : String) : Option Subscription :=
  st.followers.find? (fun f => f.domain = domain)

/-- Modelled from the spec: `RelayState.DelSubscriber` (models package, not
under src/) — membership-store deletion of a Subscriber by domain. -/
def DelSubscriber (st : RelayStateModel) (domain : String) : RelayStateModel :=
  { st with subscribers := st.subscribers.filter (fun s => s.domain ≠ domain) }

/-- Modelled from the spec: `RelayState.DelFollower` (models package, not
under src/) — membership-store deletion of a Follower by domain. -/
def DelFollower (st : RelayStateModel) (domain : String) : RelayStateModel :=
  { st with followers := st.followers.filter (fun f => f.domain ≠ domain) }

/-- The observable outcome of one admin-unfollow request: HTTP status, the
JSON error text if any, the reported collection kind on success, the
resulting membership state and the enqueued reply jobs. -/
structure AdminResult where
  status : Nat
  errorText : Option String
  kind : Option String
  state : RelayStateModel
  jobs : List DeliveryJob
deriving Repr, DecidableEq

/-- `handleAdminUnfollow` (api/handle.go lines 277–358): non-POST gets 405;
an undecodable or empty-domain body gets 400; a Subscriber domain gets a
Reject reply built from a Follow whose Object is the public-audience URI,
then record deletion; a Follower domain gets a Reject reply built from a
Follow whose Object is the Relay Actor's ID, then record deletion; a domain
in neither collection gets 404 with no reply and no deletion.  `decodedBody`
models the JSON decoding of the `domain` field. -/
def handleAdminUnfollow (relayActor : Actor) (st : RelayStateModel)
    (method : String) (decodedBody : Except String String) : AdminResult :=
  if method ≠ "POST" then
    { status := 405, errorText := none, kind := none, state := st, jobs := [] }
  else
    match decodedBody with
    | .error _ =>
      { status := 400, errorText := some "invalid request body", kind := none,
        state := st, jobs := [] }
    | .ok domain =>
      if domain = "" then
        { status := 400, errorText := some "domain required", kind := none,
          state := st, jobs := [] }
      else
        match SelectSubscriber st domain with
        | some s =>
          let followBack : Activity :=
            { id := s.activityID, typ := "Follow", actor := s.actorID,
              object := .strObj publicURI, toList := [], ccList := [],
              published := "" }
          { status := 200, errorText := none, kind := some "subscriber",
            state := DelSubscriber st s.domain,
            jobs := [{ destination := s.inboxURL,
                       payload := .reply ⟨"Reject", followBack⟩ }] }
        | none =>
          match SelectFollower st domain with
          | some f =>
            let followBack : Activity :=
              { id := f.activityID, typ := "Follow", actor := f.actorID,
                object := .strObj relayActor.id, toList := [], ccList := [],
                published := "" }
            { status := 200, errorText := none, kind := some "follower",
              state := DelFollower st f.domain,
              jobs := [{ destination := f.inboxURL,
                         payload := .reply ⟨"Reject", followBack⟩ }] }
          | none =>
            { status := 404,
              errorText := some "Domain not found in subscribers or followers",
              kind := none, state := st, jobs := [] }

/-- One point of the delivery statistics (`api.DeliveryStats`). -/
structure DeliveryStats where
  timestamp : Int
  inbox : Int
  outbox : Int
deriving Repr, DecidableEq

/-- The delivery-stats response (`api.StatsResponse`). -/
structure StatsResponse where
  current : DeliveryStats
  history : List DeliveryStats
deriving Repr, DecidableEq

/-- `GetDeliveryStats` (api/stats.go lines 53–91): totals from the store,
then one history entry per minute bucket, iterating i from hours*60-1 down
to 0 with bucket = currentBucket - i*60 (entry k of the history therefore
has i = hours*60-1-k).  `redisGet` models the counter store (missing keys
read as 0). -/
def GetDeliveryStats (redisGet : String → Int) (nowUnix : Int) (hours : Nat) :
    StatsResponse :=
  let currentBucket := nowUnix / 60 * 60
  let current : DeliveryStats :=
    { timestamp := nowUnix,
      inbox := redisGet "relay:stats:inbox:total",
      outbox := redisGet "relay:stats:outbox:total" }
  let buckets := hours * 60
  let history := (List.range buckets).map (fun k =>
    let bucket := currentBucket - ((buckets - 1 - k : Nat) : Int) * 60
    { timestamp := bucket,
      inbox := redisGet ("relay:stats:inbox:" ++ toString bucket),
      outbox := redisGet ("relay:stats:outbox:" ++ toString bucket)
      : DeliveryStats })
  { current := current, history := history }

/-- The `hours` sanitization of `handleDeliveryStats` (api/stats.go lines
104–111): start from 1; a non-empty parameter that parses as an integer in
1..24 replaces it; everything else leaves 1.  `atoi` models
`strconv.Atoi`. -/
def sanitizeHours (atoi : String → Option Int) (hoursStr : String) : Int :=
  if hoursStr ≠ "" then
    match atoi hoursStr with
    | some h => if h > 0 && h ≤ 24 then h else 1
    | none => 1
  else 1

/-- `handleDeliveryStats` (api/stats.go lines 93–123): non-GET gets 400;
otherwise the sanitized hours drive `GetDeliveryStats` and the response is
200. -/
def handleDeliveryStats (redisGet : String → Int) (atoi : String → Option Int)
    (nowUnix : Int) (method : String) (hoursStr : String) :
    Nat × Option StatsResponse :=
  if method ≠ "GET" then (400, none)
  else
    let hours := sanitizeHours atoi hoursStr
    (200, some (GetDeliveryStats redisGet nowUnix hours.toNat))

/-! ### Helper lemmas about the handler branches -/

theorem handleInbox_post_ok (cfg : Config) (ra : Actor) (st : RelayStateModel)
    (ph : String → String) (fetch : String → Except String (Activity × Actor))
    (fmts : List (String → Option Int)) (t : Int) (a : Activity) (actor : Actor)
    (body : String) :
    handleInbox cfg ra st ph fetch fmts t "POST" (.ok (a, actor, body)) =
      { handleInboxCore cfg ra st a actor (ph a.actor) body fetch with
        delayRec := recordDelayMetrics fmts a (ph a.actor) t } := by
  simp [handleInbox]

theorem followCase_fields (cfg : Config) (st : RelayStateModel) (a : Activity)
    (actor : Actor) :
    (followCase cfg st a actor).status = 202 ∧
      (followCase cfg st a actor).respBody = none ∧
      (followCase cfg st a actor).fetches = [] ∧
      (followCase cfg st a actor).finalized = [] := by
  unfold followCase
  cases h : executeFollowing cfg st a actor with
  | error e => simp [ackResult]
  | ok p => simp [ackResult]

theorem undoCase_fields (st : RelayStateModel) (a : Activity) (actor : Actor) :
    (undoCase st a actor).status = 202 ∧
      (undoCase st a actor).respBody = none ∧
      (undoCase st a actor).fetches = [] ∧
      (undoCase st a actor).finalized = [] := by
  unfold undoCase
  cases h : a.UnwrapInnerActivity with
  | error e => simp [ackResult]
  | ok inner =>
    by_cases hf : inner.typ = "Follow"
    · simp only [hf, if_pos rfl]
      cases h2 : executeUnfollowing st inner actor with
      | error e => simp [ackResult]
      | ok st2 => simp [ackResult]
    · simp [hf, ackResult]

theorem acceptRejectCase_fields (st : RelayStateModel) (a : Activity)
    (actor : Actor) :
    (acceptRejectCase st a actor).status = 202 ∧
      (acceptRejectCase st a actor).respBody = none ∧
      (acceptRejectCase st a actor).fetches = [] ∧
      (acceptRejectCase st a actor).jobs = [] := by
  unfold acceptRejectCase
  cases h : a.UnwrapInnerActivity with
  | error e => simp [ackResult]
  | ok inner =>
    by_cases hf : inner.typ = "Follow"
    · simp [hf, ackResult]
    · simp [hf, ackResult]

theorem announceCase_status (st : RelayStateModel) (a : Activity)
    (actorHost : String) (fetch : String → Except String (Activity × Actor)) :
    (announceCase st a actorHost fetch).status = 202 ∨
      ((announceCase st a actorHost fetch).status = 401 ∧
        (announceCase st a actorHost fetch).respBody.isSome) ∨
      ((announceCase st a actorHost fetch).status = 400 ∧
        (announceCase st a actorHost fetch).respBody.isSome) := by
  unfold announceCase
  by_cases hm : isActorSubscribersOrFollowers st actorHost
  · cases ho : a.object with
    | strObj u =>
      cases hf : fetch u with
      | error e => simp [hm, ho, hf, ackResult]
      | ok p => simp [hm, ho, hf, ackResult]
    | mapObj i p inner => simp [hm, ho, ackResult]
    | otherObj => simp [hm, ho, ackResult]
  · simp [hm, ackResult]

theorem publicBroadcastBranch_status (st : RelayStateModel) (a : Activity)
    (actorHost : String) (body : String) :
    (publicBroadcastBranch st a actorHost body).status = 202 ∨
      ((publicBroadcastBranch st a actorHost body).status = 401 ∧
        (publicBroadcastBranch st a actorHost body).respBody.isSome) := by
  unfold publicBroadcastBranch
  by_cases hc : (a.typ = "Create" || a.typ = "Update" || a.typ = "Delete" ||
      a.typ = "Move") = true
  · rw [if_pos hc]
    cases h : executeRelayActivity st a actorHost body with
    | error e => simp [ackResult]
    | ok jobs => simp [ackResult]
  · rw [if_neg hc]
    simp [ackResult]

theorem handleInboxCore_status (cfg : Config) (ra : Actor)
    (st : RelayStateModel) (a : Activity) (actor : Actor) (actorHost : String)
    (body : String) (fetch : String → Except String (Activity × Actor)) :
    (handleInboxCore cfg ra st a actor actorHost body fetch).status = 202 ∨
      ((handleInboxCore cfg ra st a actor actorHost body fetch).status = 401 ∧
        (handleInboxCore cfg ra st a actor actorHost body fetch).respBody.isSome) ∨
      ((handleInboxCore cfg ra st a actor actorHost body fetch).status = 400 ∧
        (handleInboxCore cfg ra st a actor actorHost body fetch).respBody.isSome ∧
        a.typ = "Announce") := by
  unfold handleInboxCore
  cases hd : classify ra.id st a with
  | publicBroadcast =>
    rcases publicBroadcastBranch_status st a actorHost body with h | h
    · exact Or.inl h
    · exact Or.inr (Or.inl h)
  | relayDirected =>
    unfold relayDirectedBranch
    by_cases h1 : a.typ = "Follow"
    · simp [h1, (followCase_fields cfg st a actor).1]
    · by_cases h2 : a.typ = "Undo"
      · simp [h1, h2, (undoCase_fields st a actor).1]
      · by_cases h3 : a.typ = "Accept"
        · simp [h1, h2, h3, (acceptRejectCase_fields st a actor).1]
        · by_cases h4 : a.typ = "Reject"
          · simp [h1, h2, h3, h4, (acceptRejectCase_fields st a actor).1]
          · by_cases h5 : a.typ = "Announce"
            · simp only [h1, h2, h3, h4, h5, if_false, if_true, if_neg, if_pos]
              rcases announceCase_status st a actorHost fetch with h | h | h
              · exact Or.inl (by simp [h5, h])
              · exact Or.inr (Or.inl (by simp [h5, h.1, h.2]))
              · exact Or.inr (Or.inr (by simp [h5, h.1, h.2]))
            · simp [h1, h2, h3, h4, h5, ackResult]
  | unaddressed =>
    unfold unaddressedBranch
    by_cases h1 : a.typ = "Follow"
    · simp [h1, (followCase_fields cfg st a actor).1]
    · by_cases h2 : a.typ = "Undo"
      · simp [h1, h2, (undoCase_fields st a actor).1]
      · simp [h1, h2, ackResult]

/-! ### The claims -/

/-- C1: every inbound activity is classified into exactly one of the three
dialects by a fixed first-match decision order: PublicBroadcast whenever
`to` or `cc` contains the public-audience URI (even if the Relay Actor's ID
or a Follower address is also present); otherwise RelayDirected when
`to`/`cc` contains the Relay Actor's ID or a Follower address; otherwise
Unaddressed.  Classification is deterministic and total over every
(to, cc) combination. -/
theorem classify_first_match (rid : String) (st : RelayStateModel) (a : Activity) :
    (classify rid st a = .publicBroadcast ↔
      (contains a.toList publicURI || contains a.ccList publicURI) = true)
    ∧ (classify rid st a = .relayDirected ↔
      (contains a.toList publicURI || contains a.ccList publicURI) = false ∧
      (contains a.toList rid || contains a.ccList rid ||
        isToMyFollower st a.toList || isToMyFollower st a.ccList) = true)
    ∧ (classify rid st a = .unaddressed ↔
      (contains a.toList publicURI || contains a.ccList publicURI) = false ∧
      (contains a.toList rid || contains a.ccList rid ||
        isToMyFollower st a.toList || isToMyFollower st a.ccList) = false)
    ∧ (classify rid st a = .publicBroadcast ∨
      classify rid st a = .relayDirected ∨
      classify rid st a = .unaddressed) := by
  unfold classify
  cases h1 : (contains a.toList publicURI || contains a.ccList publicURI) <;>
    cases h2 : (contains a.toList rid || contains a.ccList rid ||
      isToMyFollower st a.toList || isToMyFollower st a.ccList) <;>
    simp [h1, h2]

/-! ### Concrete instances used by the C2 counterexample and witnesses -/

/-- The relay's own actor used by the concrete instances. -/
def relayActorEx : Actor :=
  { id := "https://relay.example/actor", inbox := "https://relay.example/inbox",
    host := "relay.example" }

/-- A sender from an administratively blocked domain. -/
def blockedActorEx : Actor :=
  { id := "https://blocked.example/users/bob",
    inbox := "https://blocked.example/inbox", host := "blocked.example" }

/-- A configuration blocking `blocked.example`, with auto-approval. -/
def cfgBlockedEx : Config :=
  { blockedDomains := ["blocked.example"], manualApproval := false }

/-- A Follow from the blocked sender, addressed to the relay actor
(RelayDirected dialect). -/
def followBlockedEx : Activity :=
  { id := "f1", typ := "Follow", actor := "https://blocked.example/users/bob",
    object := .strObj "https://relay.example/actor",
    toList := ["https://relay.example/actor"], ccList := [], published := "" }

/-- The empty membership state. -/
def emptyStateEx : RelayStateModel := { subscribers := [], followers := [] }

/-- A host-extraction oracle for the blocked sender. -/
def hostOracleEx : String → String := fun _ => "blocked.example"

/-- A remote-fetch oracle that always fails (never consulted by the
handshake instances). -/
def fetchOracleEx : String → Except String (Activity × Actor) :=
  fun _ => .error "unreachable"

/-- An empty list of timestamp parsers. -/
def noFormatsEx : List (String → Option Int) := []

/-- C2 counterexample: at a concrete POST of a Follow whose admission fails
(sender domain administratively blocked, RelayDirected addressing), the
handler responds 202 — not 401 as the claim states for a failed Follow
admission. -/
theorem handleInbox_followFailure_202_not_401 :
    executeFollowing cfgBlockedEx emptyStateEx followBlockedEx blockedActorEx =
      .error "this domain is blocked" ∧
    (handleInbox cfgBlockedEx relayActorEx emptyStateEx hostOracleEx
      fetchOracleEx noFormatsEx 0 "POST"
      (.ok (followBlockedEx, blockedActorEx, ""))).status = 202 ∧
    ¬((handleInbox cfgBlockedEx relayActorEx emptyStateEx hostOracleEx
      fetchOracleEx noFormatsEx 0 "POST"
      (.ok (followBlockedEx, blockedActorEx, ""))).status = 401) := by
  refine ⟨rfl, by decide, by decide⟩

theorem handleInboxCore_follow (cfg : Config) (ra : Actor)
    (st : RelayStateModel) (a : Activity) (actor : Actor) (actorHost : String)
    (body : String) (fetch : String → Except String (Activity × Actor))
    (h : a.typ = "Follow") :
    handleInboxCore cfg ra st a actor actorHost body fetch =
      (if (classify ra.id st a) = .publicBroadcast then ackResult 202 st
       else followCase cfg st a actor) := by
  unfold handleInboxCore
  cases hd : classify ra.id st a with
  | publicBroadcast =>
    unfold publicBroadcastBranch
    simp [h, ackResult]
  | relayDirected =>
    unfold relayDirectedBranch
    simp [h]
  | unaddressed =>
    unfold unaddressedBranch
    simp [h]

theorem handleInboxCore_announce_nonmember (cfg : Config) (ra : Actor)
    (st : RelayStateModel) (a : Activity) (actor : Actor) (actorHost : String)
    (body : String) (fetch : String → Except String (Activity × Actor))
    (hd : classify ra.id st a = .relayDirected) (h : a.typ = "Announce")
    (hm : isActorSubscribersOrFollowers st actorHost = false) :
    handleInboxCore cfg ra st a actor actorHost body fetch =
      { ackResult 401 st with
        respBody := some "to use the relay service, please follow in advance" } := by
  unfold handleInboxCore
  rw [hd]
  unfold relayDirectedBranch announceCase
  simp [h, hm, ackResult]

/-- C2 (amended): a non-POST method yields 405; a POST whose body fails
decoding yields 400; a POST RelayDirected Announce from a non-member yields
401 with a plain-text error body; a Follow whose admission fails yields 202
(a Reject reply is dispatched instead of a 401); and every decoded POST is
answered 202 except the authorization failures answered 401 with an error
body and the Announce whose original fetch fails, answered 400 with an
error body. -/
theorem handleInbox_response_codes (cfg : Config) (ra : Actor)
    (st : RelayStateModel) (ph : String → String)
    (fetch : String → Except String (Activity × Actor))
    (fmts : List (String → Option Int)) (t : Int) (method : String)
    (decoded : Except String (Activity × Actor × String)) :
    (method ≠ "POST" →
      (handleInbox cfg ra st ph fetch fmts t method decoded).status = 405)
    ∧ (∀ e, decoded = .error e →
      (handleInbox cfg ra st ph fetch fmts t "POST" decoded).status = 400)
    ∧ (∀ a actor body, decoded = .ok (a, actor, body) →
      ((handleInbox cfg ra st ph fetch fmts t "POST" decoded).status = 202 ∨
        ((handleInbox cfg ra st ph fetch fmts t "POST" decoded).status = 401 ∧
          (handleInbox cfg ra st ph fetch fmts t "POST" decoded).respBody.isSome) ∨
        ((handleInbox cfg ra st ph fetch fmts t "POST" decoded).status = 400 ∧
          (handleInbox cfg ra st ph fetch fmts t "POST" decoded).respBody.isSome ∧
          a.typ = "Announce"))
      ∧ (a.typ = "Follow" →
        (handleInbox cfg ra st ph fetch fmts t "POST" decoded).status = 202)
      ∧ (classify ra.id st a = .relayDirected → a.typ = "Announce" →
        isActorSubscribersOrFollowers st (ph a.actor) = false →
        (handleInbox cfg ra st ph fetch fmts t "POST" decoded).status = 401 ∧
          (handleInbox cfg ra st ph fetch fmts t "POST" decoded).respBody =
            some "to use the relay service, please follow in advance")) := by
  refine ⟨?_, ?_, ?_⟩
  · intro h
    unfold handleInbox
    rw [if_neg h]
    simp [ackResult]
  · intro e he
    subst he
    simp [handleInbox, ackResult]
  · intro a actor body hok
    subst hok
    rw [handleInbox_post_ok]
    refine ⟨?_, ?_, ?_⟩
    · rcases handleInboxCore_status cfg ra st a actor (ph a.actor) body fetch
        with h | h | h
      · exact Or.inl h
      · exact Or.inr (Or.inl h)
      · exact Or.inr (Or.inr h)
    · intro h
      rw [handleInboxCore_follow cfg ra st a actor (ph a.actor) body fetch h]
      by_cases hd : classify ra.id st a = .publicBroadcast
      · simp [hd, ackResult]
      · simp only [if_neg hd]
        exact (followCase_fields cfg st a actor).1
    · intro hd h hm
      rw [handleInboxCore_announce_nonmember cfg ra st a actor (ph a.actor)
        body fetch hd h hm]
      simp [ackResult]

/-- C2 amended-claim witness: the 405 branch at a concrete GET request. -/
theorem handleInbox_response_codes_witness :
    (handleInbox cfgBlockedEx relayActorEx emptyStateEx hostOracleEx
      fetchOracleEx noFormatsEx 0 "GET" (.error "bad payload")).status = 405 :=
  (handleInbox_response_codes cfgBlockedEx relayActorEx emptyStateEx
    hostOracleEx fetchOracleEx noFormatsEx 0 "GET" (.error "bad payload")).1
    (by decide)

theorem handleInboxCore_announce_member (cfg : Config) (ra : Actor)
    (st : RelayStateModel) (a : Activity) (actor : Actor) (actorHost : String)
    (body : String) (fetch : String → Except String (Activity × Actor))
    (u : String) (hd : classify ra.id st a = .relayDirected)
    (h : a.typ = "Announce")
    (hm : isActorSubscribersOrFollowers st actorHost = true)
    (ho : a.object = .strObj u) :
    (∀ e, fetch u = .error e →
      handleInboxCore cfg ra st a actor actorHost body fetch =
        { ackResult 400 st with respBody := some e, fetches := [u] })
    ∧ (∀ orig origActor, fetch u = .ok (orig, origActor) →
      handleInboxCore cfg ra st a actor actorHost body fetch =
        { ackResult 202 st with
          jobs := (executeAnnounceActivity st orig origActor),
          fetches := [u] }) := by
  constructor
  · intro e hf
    unfold handleInboxCore
    rw [hd]
    unfold relayDirectedBranch announceCase
    simp [h, hm, ho, hf]
  · intro orig origActor hf
    unfold handleInboxCore
    rw [hd]
    unfold relayDirectedBranch announceCase
    simp [h, hm, ho, hf]

/-- C3: for an inbound RelayDirected Announce — a non-member sender
produces zero delivery jobs and a 401 response; a member sender whose
Announce object is a bare URI triggers exactly one remote fetch of the
original activity, and the resolved original activity (not the Announce
wrapper) is broadcast to all active Subscribers and Followers. -/
theorem handleInbox_announce (cfg : Config) (ra : Actor)
    (st : RelayStateModel) (ph : String → String)
    (fetch : String → Except String (Activity × Actor))
    (fmts : List (String → Option Int)) (t : Int) (a : Activity)
    (actor : Actor) (body : String)
    (hd : classify ra.id st a = .relayDirected) (h : a.typ = "Announce") :
    (isActorSubscribersOrFollowers st (ph a.actor) = false →
      (handleInbox cfg ra st ph fetch fmts t "POST"
        (.ok (a, actor, body))).jobs = [] ∧
      (handleInbox cfg ra st ph fetch fmts t "POST"
        (.ok (a, actor, body))).status = 401)
    ∧ (∀ u, isActorSubscribersOrFollowers st (ph a.actor) = true →
      a.object = .strObj u →
      (handleInbox cfg ra st ph fetch fmts t "POST"
        (.ok (a, actor, body))).fetches = [u]
      ∧ (∀ orig origActor, fetch u = .ok (orig, origActor) →
        (handleInbox cfg ra st ph fetch fmts t "POST"
          (.ok (a, actor, body))).status = 202 ∧
        (handleInbox cfg ra st ph fetch fmts t "POST"
          (.ok (a, actor, body))).jobs =
          (((st.subscribers.filter (fun s => !s.pending)) ++
              (st.followers.filter (fun f => !f.pending))).map
            (fun s => { destination := s.inboxURL,
                        payload := .resolved orig })))) := by
  rw [handleInbox_post_ok]
  constructor
  · intro hm
    rw [handleInboxCore_announce_nonmember cfg ra st a actor (ph a.actor)
      body fetch hd h hm]
    simp [ackResult]
  · intro u hm ho
    have hmem := handleInboxCore_announce_member cfg ra st a actor (ph a.actor)
      body fetch u hd h hm ho
    constructor
    · cases hf : fetch u with
      | error e => rw [hmem.1 e hf]
      | ok p => rw [hmem.2 p.1 p.2 (by rw [hf])]
    · intro orig origActor hf
      rw [hmem.2 orig origActor hf]
      simp [ackResult, executeAnnounceActivity]

/-! ### Concrete instances for the member-Announce witness -/

/-- An active Subscriber record. -/
def subEx : Subscription :=
  { domain := "sub.example", inboxURL := "https://sub.example/inbox",
    activityID := "fs1", actorID := "https://sub.example/actor",
    pending := false }

/-- An active Follower record. -/
def folEx : Subscription :=
  { domain := "fol.example", inboxURL := "https://fol.example/inbox",
    activityID := "ff1", actorID := "https://fol.example/actor",
    pending := false }

/-- A membership state with one Subscriber and one Follower. -/
def memberStateEx : RelayStateModel :=
  { subscribers := [subEx], followers := [folEx] }

/-- A member sender (domain `sub.example`). -/
def announceActorEx : Actor :=
  { id := "https://sub.example/users/ann",
    inbox := "https://sub.example/inbox", host := "sub.example" }

/-- An Announce from the member sender whose object is a bare URI,
addressed to the relay actor. -/
def announceEx : Activity :=
  { id := "an1", typ := "Announce", actor := "https://sub.example/users/ann",
    object := .strObj "https://orig.example/note/1",
    toList := ["https://relay.example/actor"], ccList := [], published := "" }

/-- The original activity resolved by the fetch oracle. -/
def origActivityEx : Activity :=
  { id := "o1", typ := "Create", actor := "https://orig.example/users/o",
    object := .otherObj, toList := [], ccList := [], published := "" }

/-- The original actor resolved by the fetch oracle. -/
def origActorEx : Actor :=
  { id := "https://orig.example/users/o",
    inbox := "https://orig.example/inbox", host := "orig.example" }

/-- A fetch oracle that resolves every URI to the original activity. -/
def fetchOkEx : String → Except String (Activity × Actor) :=
  fun _ => .ok (origActivityEx, origActorEx)

/-- A host-extraction oracle for the member sender. -/
def hostSubEx : String → String := fun _ => "sub.example"

/-- C3 witness: the member Announce at concrete inputs performs one fetch
and broadcasts the resolved original to the Subscriber and the Follower. -/
theorem handleInbox_announce_witness :
    (handleInbox cfgBlockedEx relayActorEx memberStateEx hostSubEx fetchOkEx
      noFormatsEx 0 "POST" (.ok (announceEx, announceActorEx, ""))).fetches =
        ["https://orig.example/note/1"] ∧
    (handleInbox cfgBlockedEx relayActorEx memberStateEx hostSubEx fetchOkEx
      noFormatsEx 0 "POST" (.ok (announceEx, announceActorEx, ""))).jobs =
      [{ destination := "https://sub.example/inbox",
         payload := .resolved origActivityEx },
       { destination := "https://fol.example/inbox",
         payload := .resolved origActivityEx }] := by
  obtain ⟨-, h2⟩ := handleInbox_announce cfgBlockedEx relayActorEx
    memberStateEx hostSubEx fetchOkEx noFormatsEx 0 announceEx announceActorEx
    "" (by decide) rfl
  obtain ⟨hf, hrest⟩ := h2 "https://orig.example/note/1" (by decide) rfl
  obtain ⟨-, hj⟩ := hrest origActivityEx origActorEx rfl
  refine ⟨hf, ?_⟩
  rw [hj]
  decide

theorem handleInboxCore_unwrapFailure (cfg : Config) (ra : Actor)
    (st : RelayStateModel) (a : Activity) (actor : Actor) (actorHost : String)
    (body : String) (fetch : String → Except String (Activity × Actor))
    (e : String)
    (htyp : a.typ = "Undo" ∨ a.typ = "Accept" ∨ a.typ = "Reject")
    (hun : a.UnwrapInnerActivity = .error e) :
    handleInboxCore cfg ra st a actor actorHost body fetch =
      ackResult 202 st := by
  unfold handleInboxCore
  rcases htyp with h | h | h <;> cases hd : classify ra.id st a <;>
    simp only [publicBroadcastBranch, relayDirectedBranch, unaddressedBranch,
      undoCase, acceptRejectCase, h, hun] <;>
    simp [hun]

/-- C4: an inbound Undo, Accept, or Reject whose inner activity cannot be
unwrapped is acknowledged with 202 and performs no membership mutation —
no state change, no delivery jobs, no handshake finalization. -/
theorem handleInbox_unwrapFailure_noop (cfg : Config) (ra : Actor)
    (st : RelayStateModel) (ph : String → String)
    (fetch : String → Except String (Activity × Actor))
    (fmts : List (String → Option Int)) (t : Int) (a : Activity)
    (actor : Actor) (body : String) (e : String)
    (htyp : a.typ = "Undo" ∨ a.typ = "Accept" ∨ a.typ = "Reject")
    (hun : a.UnwrapInnerActivity = .error e) :
    (handleInbox cfg ra st ph fetch fmts t "POST"
      (.ok (a, actor, body))).status = 202 ∧
    (handleInbox cfg ra st ph fetch fmts t "POST"
      (.ok (a, actor, body))).state = st ∧
    (handleInbox cfg ra st ph fetch fmts t "POST"
      (.ok (a, actor, body))).jobs = [] ∧
    (handleInbox cfg ra st ph fetch fmts t "POST"
      (.ok (a, actor, body))).finalized = [] := by
  rw [handleInbox_post_ok,
    handleInboxCore_unwrapFailure cfg ra st a actor (ph a.actor) body fetch e
      htyp hun]
  simp [ackResult]

/-- An Undo whose object is an embedded map that does not decode as an
inner activity (malformed nesting), addressed to the relay actor. -/
def undoMalformedEx : Activity :=
  { id := "u1", typ := "Undo", actor := "https://blocked.example/users/bob",
    object := .mapObj none none none,
    toList := ["https://relay.example/actor"], ccList := [], published := "" }

/-- C4 witness: the malformed Undo at concrete inputs is acknowledged with
202 and leaves the membership state untouched. -/
theorem handleInbox_unwrapFailure_noop_witness :
    (handleInbox cfgBlockedEx relayActorEx memberStateEx hostOracleEx
      fetchOracleEx noFormatsEx 0 "POST"
      (.ok (undoMalformedEx, blockedActorEx, ""))).status = 202 ∧
    (handleInbox cfgBlockedEx relayActorEx memberStateEx hostOracleEx
      fetchOracleEx noFormatsEx 0 "POST"
      (.ok (undoMalformedEx, blockedActorEx, ""))).state = memberStateEx ∧
    (handleInbox cfgBlockedEx relayActorEx memberStateEx hostOracleEx
      fetchOracleEx noFormatsEx 0 "POST"
      (.ok (undoMalformedEx, blockedActorEx, ""))).jobs = [] ∧
    (handleInbox cfgBlockedEx relayActorEx memberStateEx hostOracleEx
      fetchOracleEx noFormatsEx 0 "POST"
      (.ok (undoMalformedEx, blockedActorEx, ""))).finalized = [] :=
  handleInbox_unwrapFailure_noop cfgBlockedEx relayActorEx memberStateEx
    hostOracleEx fetchOracleEx noFormatsEx 0 undoMalformedEx blockedActorEx ""
    "failed to unwrap inner activity" (Or.inl rfl) rfl

/-- C5: a Follow that reaches admission (RelayDirected or Unaddressed
dialect) and fails validation creates no membership record (the state is
unchanged) and dispatches exactly one Reject reply — never an Accept —
back to the sender's inbox; the request is still acknowledged 202. -/
theorem handleInbox_followRejected (cfg : Config) (ra : Actor)
    (st : RelayStateModel) (ph : String → String)
    (fetch : String → Except String (Activity × Actor))
    (fmts : List (String → Option Int)) (t : Int) (a : Activity)
    (actor : Actor) (body : String) (e : String)
    (htyp : a.typ = "Follow")
    (hd : classify ra.id st a ≠ .publicBroadcast)
    (hfail : executeFollowing cfg st a actor = .error e) :
    (handleInbox cfg ra st ph fetch fmts t "POST"
      (.ok (a, actor, body))).state = st ∧
    (handleInbox cfg ra st ph fetch fmts t "POST"
      (.ok (a, actor, body))).status = 202 ∧
    (handleInbox cfg ra st ph fetch fmts t "POST"
      (.ok (a, actor, body))).jobs =
      [{ destination := actor.inbox, payload := .reply ⟨"Reject", a⟩ }] := by
  rw [handleInbox_post_ok,
    handleInboxCore_follow cfg ra st a actor (ph a.actor) body fetch htyp,
    if_neg hd]
  unfold followCase
  rw [hfail]
  simp [ackResult, executeRejectRequest]

/-- C5 witness: the blocked-domain Follow at concrete inputs mutates
nothing and enqueues exactly the Reject reply to the sender's inbox. -/
theorem handleInbox_followRejected_witness :
    (handleInbox cfgBlockedEx relayActorEx emptyStateEx hostOracleEx
      fetchOracleEx noFormatsEx 0 "POST"
      (.ok (followBlockedEx, blockedActorEx, ""))).state = emptyStateEx ∧
    (handleInbox cfgBlockedEx relayActorEx emptyStateEx hostOracleEx
      fetchOracleEx noFormatsEx 0 "POST"
      (.ok (followBlockedEx, blockedActorEx, ""))).status = 202 ∧
    (handleInbox cfgBlockedEx relayActorEx emptyStateEx hostOracleEx
      fetchOracleEx noFormatsEx 0 "POST"
      (.ok (followBlockedEx, blockedActorEx, ""))).jobs =
      [{ destination := "https://blocked.example/inbox",
         payload := .reply ⟨"Reject", followBlockedEx⟩ }] :=
  handleInbox_followRejected cfgBlockedEx relayActorEx emptyStateEx
    hostOracleEx fetchOracleEx noFormatsEx 0 followBlockedEx blockedActorEx ""
    "this domain is blocked" rfl (by decide) rfl

/-- C6: in the PublicBroadcast dialect, fan-out happens only for Create,
Update, Delete, and Move — on success the jobs are exactly one per active
Subscriber with the original activity bytes unmodified as payload — and
every other activity type produces no fan-out and is still acknowledged
202. -/
theorem handleInbox_publicBroadcast_fanout (cfg : Config) (ra : Actor)
    (st : RelayStateModel) (ph : String → String)
    (fetch : String → Except String (Activity × Actor))
    (fmts : List (String → Option Int)) (t : Int) (a : Activity)
    (actor : Actor) (body : String)
    (hd : classify ra.id st a = .publicBroadcast) :
    ((a.typ = "Create" ∨ a.typ = "Update" ∨ a.typ = "Delete" ∨
        a.typ = "Move") →
      ∀ jobs, executeRelayActivity st a (ph a.actor) body = .ok jobs →
        (handleInbox cfg ra st ph fetch fmts t "POST"
          (.ok (a, actor, body))).status = 202 ∧
        (handleInbox cfg ra st ph fetch fmts t "POST"
          (.ok (a, actor, body))).jobs = jobs ∧
        jobs = (st.subscribers.filter (fun s => !s.pending)).map
          (fun s => { destination := s.inboxURL, payload := .raw body }))
    ∧ (a.typ ≠ "Create" → a.typ ≠ "Update" → a.typ ≠ "Delete" →
        a.typ ≠ "Move" →
      (handleInbox cfg ra st ph fetch fmts t "POST"
        (.ok (a, actor, body))).status = 202 ∧
      (handleInbox cfg ra st ph fetch fmts t "POST"
        (.ok (a, actor, body))).jobs = [] ∧
      (handleInbox cfg ra st ph fetch fmts t "POST"
        (.ok (a, actor, body))).state = st) := by
  rw [handleInbox_post_ok]
  unfold handleInboxCore
  rw [hd]
  constructor
  · intro htyp jobs hok
    have hjobs : jobs = (st.subscribers.filter (fun s => !s.pending)).map
        (fun s => { destination := s.inboxURL, payload := .raw body }) := by
      unfold executeRelayActivity at hok
      by_cases hm : isActorSubscribersOrFollowers st (ph a.actor) = true
      · rw [if_pos hm] at hok
        exact (Except.ok.injEq _ _ ▸ congrArg id hok).symm ▸ by
          cases hok
          rfl
      · simp [hm] at hok
    unfold publicBroadcastBranch
    rcases htyp with h | h | h | h <;>
      · simp only [h]
        rw [if_pos (by decide), hok]
        simp [ackResult, hjobs]
  · intro h1 h2 h3 h4
    unfold publicBroadcastBranch
    rw [if_neg (by simp [h1, h2, h3, h4])]
    simp [ackResult]

/-- A Create from the member sender addressed to the public audience. -/
def createPublicEx : Activity :=
  { id := "c1", typ := "Create", actor := "https://sub.example/users/ann",
    object := .otherObj, toList := [publicURI], ccList := [], published := "" }

/-- C6 witness: the concrete public Create is relayed to the single active
Subscriber with the original body as payload. -/
theorem handleInbox_publicBroadcast_fanout_witness :
    (handleInbox cfgBlockedEx relayActorEx memberStateEx hostSubEx
      fetchOkEx noFormatsEx 0 "POST"
      (.ok (createPublicEx, announceActorEx, "RAWBODY"))).status = 202 ∧
    (handleInbox cfgBlockedEx relayActorEx memberStateEx hostSubEx
      fetchOkEx noFormatsEx 0 "POST"
      (.ok (createPublicEx, announceActorEx, "RAWBODY"))).jobs =
      [{ destination := "https://sub.example/inbox",
         payload := .raw "RAWBODY" }] := by
  obtain ⟨h1, -⟩ := handleInbox_publicBroadcast_fanout cfgBlockedEx
    relayActorEx memberStateEx hostSubEx fetchOkEx noFormatsEx 0 createPublicEx
    announceActorEx "RAWBODY" (by decide)
  obtain ⟨hs, hj, hval⟩ := h1 (Or.inl rfl)
    [{ destination := "https://sub.example/inbox", payload := .raw "RAWBODY" }]
    rfl
  exact ⟨hs, hj⟩

theorem publicBroadcastBranch_finalized (st : RelayStateModel) (a : Activity)
    (actorHost : String) (body : String) :
    (publicBroadcastBranch st a actorHost body).finalized = [] := by
  unfold publicBroadcastBranch
  by_cases hc : (a.typ = "Create" || a.typ = "Update" || a.typ = "Delete" ||
      a.typ = "Move") = true
  · rw [if_pos hc]
    cases h : executeRelayActivity st a actorHost body with
    | error e => simp [ackResult]
    | ok jobs => simp [ackResult]
  · rw [if_neg hc]
    simp [ackResult]

theorem announceCase_finalized (st : RelayStateModel) (a : Activity)
    (actorHost : String) (fetch : String → Except String (Activity × Actor)) :
    (announceCase st a actorHost fetch).finalized = [] := by
  unfold announceCase
  by_cases hm : isActorSubscribersOrFollowers st actorHost
  · cases ho : a.object with
    | strObj u =>
      cases hf : fetch u with
      | error e => simp [hm, ho, hf, ackResult]
      | ok p => simp [hm, ho, hf, ackResult]
    | mapObj i p inner => simp [hm, ho, ackResult]
    | otherObj => simp [hm, ho, ackResult]
  · simp [hm, ackResult]

theorem unaddressedBranch_finalized (cfg : Config) (st : RelayStateModel)
    (a : Activity) (actor : Actor) :
    (unaddressedBranch cfg st a actor).finalized = [] := by
  unfold unaddressedBranch
  by_cases h1 : a.typ = "Follow"
  · simp [h1, (followCase_fields cfg st a actor).2.2.2]
  · by_cases h2 : a.typ = "Undo"
    · simp [h1, h2, (undoCase_fields st a actor).2.2.2]
    · simp [h1, h2, ackResult]

/-- C7: Accept(Follow)/Reject(Follow) handshake finalization occurs only
for activities classified Relay-Directed; in the Unaddressed dialect an
inbound Accept or Reject is acknowledged 202 with no state change, no jobs
and no finalization, and any type other than Follow and Undo leaves the
membership state untouched. -/
theorem handleInbox_finalization_dialects (cfg : Config) (ra : Actor)
    (st : RelayStateModel) (ph : String → String)
    (fetch : String → Except String (Activity × Actor))
    (fmts : List (String → Option Int)) (t : Int) (a : Activity)
    (actor : Actor) (body : String) :
    ((handleInbox cfg ra st ph fetch fmts t "POST"
        (.ok (a, actor, body))).finalized ≠ [] →
      classify ra.id st a = .relayDirected ∧
        (a.typ = "Accept" ∨ a.typ = "Reject"))
    ∧ (classify ra.id st a = .unaddressed →
      ((a.typ = "Accept" ∨ a.typ = "Reject") →
        (handleInbox cfg ra st ph fetch fmts t "POST"
          (.ok (a, actor, body))).status = 202 ∧
        (handleInbox cfg ra st ph fetch fmts t "POST"
          (.ok (a, actor, body))).state = st ∧
        (handleInbox cfg ra st ph fetch fmts t "POST"
          (.ok (a, actor, body))).jobs = [] ∧
        (handleInbox cfg ra st ph fetch fmts t "POST"
          (.ok (a, actor, body))).finalized = [])
      ∧ (a.typ ≠ "Follow" → a.typ ≠ "Undo" →
        (handleInbox cfg ra st ph fetch fmts t "POST"
          (.ok (a, actor, body))).state = st ∧
        (handleInbox cfg ra st ph fetch fmts t "POST"
          (.ok (a, actor, body))).status = 202)) := by
  rw [handleInbox_post_ok]
  constructor
  · intro hne
    unfold handleInboxCore at hne
    cases hd : classify ra.id st a with
    | publicBroadcast =>
      rw [hd] at hne
      simp [publicBroadcastBranch_finalized] at hne
    | relayDirected =>
      refine ⟨rfl, ?_⟩
      rw [hd] at hne
      unfold relayDirectedBranch at hne
      by_cases h1 : a.typ = "Follow"
      · simp [h1, (followCase_fields cfg st a actor).2.2.2] at hne
      · by_cases h2 : a.typ = "Undo"
        · simp [h1, h2, (undoCase_fields st a actor).2.2.2] at hne
        · by_cases h3 : a.typ = "Accept"
          · exact Or.inl h3
          · by_cases h4 : a.typ = "Reject"
            · exact Or.inr h4
            · by_cases h5 : a.typ = "Announce"
              · simp [h1, h2, h3, h4, h5, announceCase_finalized] at hne
              · simp [h1, h2, h3, h4, h5, ackResult] at hne
    | unaddressed =>
      rw [hd] at hne
      simp [unaddressedBranch_finalized] at hne
  · intro hd
    unfold handleInboxCore
    rw [hd]
    unfold unaddressedBranch
    constructor
    · intro htyp
      rcases htyp with h | h <;>
        · rw [if_neg (by simp [h]), if_neg (by simp [h])]
          simp [ackResult]
    · intro h1 h2
      rw [if_neg h1, if_neg h2]
      simp [ackResult]

/-- An inbound Accept in the Unaddressed dialect (no public URI, no relay
ID, no follower inbox among the recipients). -/
def acceptUnaddressedEx : Activity :=
  { id := "ac1", typ := "Accept", actor := "https://other.example/users/x",
    object := .mapObj none none (some
      { id := "f9", typ := "Follow", actor := "https://other.example/users/x",
        objectStr := "https://relay.example/actor" }),
    toList := ["https://other.example/inbox"], ccList := [], published := "" }

/-- C7 witness: the concrete Unaddressed Accept is acknowledged 202 with no
state change, no jobs and no finalization. -/
theorem handleInbox_finalization_dialects_witness :
    (handleInbox cfgBlockedEx relayActorEx memberStateEx hostOracleEx
      fetchOracleEx noFormatsEx 0 "POST"
      (.ok (acceptUnaddressedEx, blockedActorEx, ""))).status = 202 ∧
    (handleInbox cfgBlockedEx relayActorEx memberStateEx hostOracleEx
      fetchOracleEx noFormatsEx 0 "POST"
      (.ok (acceptUnaddressedEx, blockedActorEx, ""))).state = memberStateEx ∧
    (handleInbox cfgBlockedEx relayActorEx memberStateEx hostOracleEx
      fetchOracleEx noFormatsEx 0 "POST"
      (.ok (acceptUnaddressedEx, blockedActorEx, ""))).jobs = [] ∧
    (handleInbox cfgBlockedEx relayActorEx memberStateEx hostOracleEx
      fetchOracleEx noFormatsEx 0 "POST"
      (.ok (acceptUnaddressedEx, blockedActorEx, ""))).finalized = [] :=
  ((handleInbox_finalization_dialects cfgBlockedEx relayActorEx memberStateEx
    hostOracleEx fetchOracleEx noFormatsEx 0 acceptUnaddressedEx
    blockedActorEx "").2 (by decide)).1 (Or.inl rfl)

/-- C8: administrative unfollow of a domain — a Subscriber gets a Reject
reply built from a Follow whose Object is the public-audience URI; a
Follower gets a Reject reply whose Follow Object is the Relay Actor's ID;
in both cases the reply is enqueued and the record deleted; a domain in
neither collection yields 404 with no reply and no deletion. -/
theorem handleAdminUnfollow_replies (ra : Actor) (st : RelayStateModel)
    (domain : String) (hne : domain ≠ "") :
    (∀ s, SelectSubscriber st domain = some s →
      (handleAdminUnfollow ra st "POST" (.ok domain)).status = 200 ∧
      (handleAdminUnfollow ra st "POST" (.ok domain)).jobs =
        [{ destination := s.inboxURL, payload := .reply ⟨"Reject",
          { id := s.activityID, typ := "Follow", actor := s.actorID,
            object := .strObj publicURI, toList := [], ccList := [],
            published := "" }⟩ }] ∧
      (handleAdminUnfollow ra st "POST" (.ok domain)).state =
        DelSubscriber st s.domain ∧
      (handleAdminUnfollow ra st "POST" (.ok domain)).kind =
        some "subscriber")
    ∧ (SelectSubscriber st domain = none →
      ∀ f, SelectFollower st domain = some f →
      (handleAdminUnfollow ra st "POST" (.ok domain)).status = 200 ∧
      (handleAdminUnfollow ra st "POST" (.ok domain)).jobs =
        [{ destination := f.inboxURL, payload := .reply ⟨"Reject",
          { id := f.activityID, typ := "Follow", actor := f.actorID,
            object := .strObj ra.id, toList := [], ccList := [],
            published := "" }⟩ }] ∧
      (handleAdminUnfollow ra st "POST" (.ok domain)).state =
        DelFollower st f.domain ∧
      (handleAdminUnfollow ra st "POST" (.ok domain)).kind =
        some "follower")
    ∧ (SelectSubscriber st domain = none → SelectFollower st domain = none →
      (handleAdminUnfollow ra st "POST" (.ok domain)).status = 404 ∧
      (handleAdminUnfollow ra st "POST" (.ok domain)).jobs = [] ∧
      (handleAdminUnfollow ra st "POST" (.ok domain)).state = st) := by
  refine ⟨?_, ?_, ?_⟩
  · intro s hs
    unfold handleAdminUnfollow
    simp [hne, hs]
  · intro hnone f hf
    unfold handleAdminUnfollow
    simp [hne, hnone, hf]
  · intro hnone hfnone
    unfold handleAdminUnfollow
    simp [hne, hnone, hfnone]

/-- C8 witness: unfollowing the concrete Subscriber domain enqueues the
public-audience-object Reject and removes the record. -/
theorem handleAdminUnfollow_replies_witness :
    (handleAdminUnfollow relayActorEx memberStateEx "POST"
      (.ok "sub.example")).status = 200 ∧
    (handleAdminUnfollow relayActorEx memberStateEx "POST"
      (.ok "sub.example")).jobs =
      [{ destination := "https://sub.example/inbox",
         payload := (Payload.reply ⟨"Reject",
          { id := "fs1", typ := "Follow", actor := "https://sub.example/actor",
            object := .strObj publicURI, toList := [], ccList := [],
            published := "" }⟩) }] ∧
    (handleAdminUnfollow relayActorEx memberStateEx "POST"
      (.ok "sub.example")).state =
      DelSubscriber memberStateEx "sub.example" ∧
    (handleAdminUnfollow relayActorEx memberStateEx "POST"
      (.ok "sub.example")).kind = some "subscriber" :=
  (handleAdminUnfollow_replies relayActorEx memberStateEx "sub.example"
    (by decide)).1 subEx rfl

/-- The timestamp string `recordDelayMetrics` extracts: the activity's own
`published` takes precedence; otherwise the embedded object's `published`
(empty when absent or when the object is not an embedded map). -/
def effectivePublished (a : Activity) : String :=
  if a.published ≠ "" then a.published
  else
    match a.object with
    | .mapObj _ publishedField _ => publishedField.getD ""
    | _ => ""

/-- The note id `recordDelayMetrics` records: the embedded object's `id`
(or the object string itself), defaulting to the activity's id. -/
def effectiveNoteID (a : Activity) : String :=
  let nid :=
    match a.object with
    | .mapObj idField _ _ => idField.getD ""
    | .strObj s => s
    | .otherObj => ""
  if nid = "" then a.id else nid

theorem recordDelayMetrics_eq (fmts : List (String → Option Int))
    (a : Activity) (host : String) (t : Int) :
    recordDelayMetrics fmts a host t =
      (if effectivePublished a = "" then none
       else
         match parseFirst fmts (effectivePublished a) with
         | none => none
         | some createdAt =>
           if t - createdAt < 0 || t - createdAt > 86400 then none
           else
             some { noteID := effectiveNoteID a, createdAt := createdAt,
                    receivedAt := t, delaySeconds := t - createdAt,
                    instanceHost := host }) := by
  unfold recordDelayMetrics effectivePublished effectiveNoteID
  by_cases hp : a.published = ""
  · cases ho : a.object <;> simp [hp, ho]
  · cases ho : a.object <;> simp [hp, ho]

theorem parseFirst_isSome_four (f1 f2 f3 f4 : String → Option Int)
    (s : String) :
    (parseFirst [f1, f2, f3, f4] s).isSome ↔
      (f1 s).isSome ∨ (f2 s).isSome ∨ (f3 s).isSome ∨ (f4 s).isSome := by
  cases h1 : f1 s <;> cases h2 : f2 s <;> cases h3 : f3 s <;> cases h4 : f4 s <;>
    simp [parseFirst, h1, h2, h3, h4]

/-- C9: a delay record is produced exactly when a published timestamp is
present, parses in one of the four accepted formats (first success wins),
and the delay (receipt minus published) lies within 0 to 86400 seconds
inclusive; the activity's own `published` takes precedence over the
object's; the note id is the object's id (or the object string itself),
defaulting to the activity's id; and the inbox HTTP response — status,
error body, state and jobs — is unaffected by the metrics computation in
every case. -/
theorem recordDelayMetrics_spec (f1 f2 f3 f4 : String → Option Int)
    (a : Activity) (host : String) (t : Int) :
    ((recordDelayMetrics [f1, f2, f3, f4] a host t).isSome ↔
      effectivePublished a ≠ "" ∧
      ∃ c, parseFirst [f1, f2, f3, f4] (effectivePublished a) = some c ∧
        0 ≤ t - c ∧ t - c ≤ 86400)
    ∧ ((parseFirst [f1, f2, f3, f4] (effectivePublished a)).isSome ↔
      (f1 (effectivePublished a)).isSome ∨ (f2 (effectivePublished a)).isSome ∨
        (f3 (effectivePublished a)).isSome ∨ (f4 (effectivePublished a)).isSome)
    ∧ (a.published ≠ "" → effectivePublished a = a.published)
    ∧ (∀ rec, recordDelayMetrics [f1, f2, f3, f4] a host t = some rec →
      rec.noteID = effectiveNoteID a ∧ rec.instanceHost = host ∧
      rec.receivedAt = t ∧ rec.delaySeconds = t - rec.createdAt ∧
      parseFirst [f1, f2, f3, f4] (effectivePublished a) = some rec.createdAt ∧
      0 ≤ rec.delaySeconds ∧ rec.delaySeconds ≤ 86400)
    ∧ (∀ (cfg : Config) (ra : Actor) (st : RelayStateModel)
        (ph : String → String)
        (fetch : String → Except String (Activity × Actor))
        (fmts2 : List (String → Option Int)) (t2 : Int) (method : String)
        (decoded : Except String (Activity × Actor × String)),
      (handleInbox cfg ra st ph fetch [f1, f2, f3, f4] t method decoded).status =
        (handleInbox cfg ra st ph fetch fmts2 t2 method decoded).status ∧
      (handleInbox cfg ra st ph fetch [f1, f2, f3, f4] t method decoded).respBody =
        (handleInbox cfg ra st ph fetch fmts2 t2 method decoded).respBody ∧
      (handleInbox cfg ra st ph fetch [f1, f2, f3, f4] t method decoded).state =
        (handleInbox cfg ra st ph fetch fmts2 t2 method decoded).state ∧
      (handleInbox cfg ra st ph fetch [f1, f2, f3, f4] t method decoded).jobs =
        (handleInbox cfg ra st ph fetch fmts2 t2 method decoded).jobs) := by
  refine ⟨?_, parseFirst_isSome_four f1 f2 f3 f4 (effectivePublished a), ?_, ?_, ?_⟩
  · rw [recordDelayMetrics_eq]
    constructor
    · intro hsome
      by_cases hp : effectivePublished a = ""
      · rw [if_pos hp] at hsome
        simp at hsome
      · rw [if_neg hp] at hsome
        refine ⟨hp, ?_⟩
        cases hc : parseFirst [f1, f2, f3, f4] (effectivePublished a) with
        | none =>
          simp only [hc] at hsome
          simp at hsome
        | some c =>
          simp only [hc] at hsome
          by_cases hr : (t - c < 0 || t - c > 86400) = true
          · rw [if_pos hr] at hsome
            simp at hsome
          · simp only [Bool.or_eq_true, decide_eq_true_eq, not_or, not_lt]
              at hr
            exact ⟨c, rfl, by omega, by omega⟩
    · rintro ⟨hp, c, hc, h0, h1⟩
      rw [if_neg hp]
      simp only [hc]
      have hcond : ¬((t - c < 0 || t - c > 86400) = true) := by
        simp only [Bool.or_eq_true, decide_eq_true_eq, not_or, not_lt]
        exact ⟨by omega, by omega⟩
      rw [if_neg hcond]
      simp
  · intro hpub
    unfold effectivePublished
    rw [if_pos hpub]
  · intro rec hrec
    rw [recordDelayMetrics_eq] at hrec
    by_cases hp : effectivePublished a = ""
    · rw [if_pos hp] at hrec
      cases hrec
    · rw [if_neg hp] at hrec
      cases hc : parseFirst [f1, f2, f3, f4] (effectivePublished a) with
      | none =>
        simp only [hc] at hrec
        cases hrec
      | some c =>
        simp only [hc] at hrec
        by_cases hr : (t - c < 0 || t - c > 86400) = true
        · rw [if_pos hr] at hrec
          cases hrec
        · rw [if_neg hr] at hrec
          simp only [Bool.or_eq_true, decide_eq_true_eq, not_or, not_lt] at hr
          cases hrec
          refine ⟨rfl, rfl, rfl, rfl, rfl, ?_, ?_⟩
          · show (0 : Int) ≤ t - c
            omega
          · show (t - c : Int) ≤ 86400
            omega
  · intro cfg ra st ph fetch fmts2 t2 method decoded
    by_cases hm : method = "POST"
    · subst hm
      cases decoded with
      | error e => simp [handleInbox]
      | ok p =>
        obtain ⟨a2, rest⟩ := p
        obtain ⟨actor2, body2⟩ := rest
        rw [handleInbox_post_ok, handleInbox_post_ok]
        simp
    · unfold handleInbox
      rw [if_neg hm, if_neg hm]
      simp

/-- A parser recognizing exactly the timestamp string used by the C9
witness. -/
def parseTSEx : String → Option Int :=
  fun s => if s = "2024-01-01T00:00:00Z" then some 100 else none

/-- A parser that never succeeds. -/
def parseNoneEx : String → Option Int := fun _ => none

/-- An activity carrying its own `published` timestamp. -/
def publishedActivityEx : Activity :=
  { id := "p1", typ := "Create", actor := "https://sub.example/users/ann",
    object := .otherObj, toList := [publicURI], ccList := [],
    published := "2024-01-01T00:00:00Z" }

/-- C9 witness: at the concrete published activity, the activity's own
timestamp is the one extracted, and a record is produced with the expected
fields. -/
theorem recordDelayMetrics_spec_witness :
    effectivePublished publishedActivityEx = "2024-01-01T00:00:00Z" ∧
    (recordDelayMetrics [parseTSEx, parseNoneEx, parseNoneEx, parseNoneEx]
      publishedActivityEx "sub.example" 200).isSome = true := by
  have hspec := recordDelayMetrics_spec parseTSEx parseNoneEx parseNoneEx
    parseNoneEx publishedActivityEx "sub.example" 200
  refine ⟨hspec.2.2.1 (by decide), ?_⟩
  rw [hspec.1]
  exact ⟨by decide, 100, by decide, by decide, by decide⟩

/-- C10: the `hours` query parameter is sanitized to 1..24 — missing,
unparseable, non-positive, or greater-than-24 values fall back to 1 — the
GET handler feeds the sanitized value to `GetDeliveryStats`, and the
returned history has exactly hours*60 entries whose timestamps are
consecutive 60-second buckets in strictly ascending order ending at the
current minute. -/
theorem handleDeliveryStats_spec (redisGet : String → Int)
    (atoi : String → Option Int) (nowUnix : Int) (hoursStr : String) :
    (1 ≤ sanitizeHours atoi hoursStr ∧ sanitizeHours atoi hoursStr ≤ 24)
    ∧ (hoursStr = "" → sanitizeHours atoi hoursStr = 1)
    ∧ (atoi hoursStr = none → sanitizeHours atoi hoursStr = 1)
    ∧ (∀ h, atoi hoursStr = some h → h ≤ 0 ∨ 24 < h →
      sanitizeHours atoi hoursStr = 1)
    ∧ (handleDeliveryStats redisGet atoi nowUnix "GET" hoursStr =
      (200, some (GetDeliveryStats redisGet nowUnix
        (sanitizeHours atoi hoursStr).toNat)))
    ∧ (∀ hrs : Nat,
      ((GetDeliveryStats redisGet nowUnix hrs).history.length = hrs * 60)
      ∧ (∀ k : Nat, k < hrs * 60 →
        ((GetDeliveryStats redisGet nowUnix hrs).history[k]?).map
            DeliveryStats.timestamp =
          some (nowUnix / 60 * 60 - ((hrs * 60 - 1 - k : Nat) : Int) * 60))
      ∧ (∀ k : Nat, k + 1 < hrs * 60 → ∀ d1 d2,
        (GetDeliveryStats redisGet nowUnix hrs).history[k]? = some d1 →
        (GetDeliveryStats redisGet nowUnix hrs).history[k + 1]? = some d2 →
        d2.timestamp = d1.timestamp + 60)
      ∧ (1 ≤ hrs →
        ((GetDeliveryStats redisGet nowUnix hrs).history[hrs * 60 - 1]?).map
            DeliveryStats.timestamp =
          some (nowUnix / 60 * 60))) := by
  have hts : ∀ (hrs k : Nat), k < hrs * 60 →
      ((GetDeliveryStats redisGet nowUnix hrs).history[k]?).map
          DeliveryStats.timestamp =
        some (nowUnix / 60 * 60 - ((hrs * 60 - 1 - k : Nat) : Int) * 60) := by
    intro hrs k hk
    unfold GetDeliveryStats
    simp [List.getElem?_map, List.getElem?_range, hk]
  refine ⟨?_, ?_, ?_, ?_, ?_, ?_⟩
  · unfold sanitizeHours
    by_cases hs : hoursStr = ""
    · simp [hs]
    · rw [if_pos hs]
      cases ha : atoi hoursStr with
      | none => simp
      | some h =>
        by_cases hb : (h > 0 && h ≤ 24) = true
        · simp only [hb, if_pos]
          simp only [Bool.and_eq_true, decide_eq_true_eq] at hb
          omega
        · simp only [hb, if_neg, Bool.not_eq_true]
          simp
  · intro hs
    unfold sanitizeHours
    simp [hs]
  · intro ha
    unfold sanitizeHours
    by_cases hs : hoursStr = ""
    · simp [hs]
    · simp [hs, ha]
  · intro h ha hout
    unfold sanitizeHours
    by_cases hs : hoursStr = ""
    · simp [hs]
    · have hb : ¬((h > 0 && h ≤ 24) = true) := by
        simp only [Bool.and_eq_true, decide_eq_true_eq, not_and, not_le]
        rcases hout with h1 | h2 <;> intro hpos <;> omega
      simp [hs, ha, hb]
  · unfold handleDeliveryStats
    simp
  · intro hrs
    refine ⟨?_, fun k hk => hts hrs k hk, ?_, ?_⟩
    · unfold GetDeliveryStats
      simp
    · intro k hk d1 d2 h1 h2
      have e1 := hts hrs k (by omega)
      have e2 := hts hrs (k + 1) hk
      rw [h1] at e1
      rw [h2] at e2
      have he1 : d1.timestamp =
          nowUnix / 60 * 60 - ((hrs * 60 - 1 - k : Nat) : Int) * 60 :=
        Option.some.inj e1
      have he2 : d2.timestamp =
          nowUnix / 60 * 60 - ((hrs * 60 - 1 - (k + 1) : Nat) : Int) * 60 :=
        Option.some.inj e2
      rw [he1, he2]
      have hcast : ((hrs * 60 - 1 - k : Nat) : Int) =
          ((hrs * 60 - 1 - (k + 1) : Nat) : Int) + 1 := by
        omega
      rw [hcast]
      ring
    · intro h1
      have := hts hrs (hrs * 60 - 1) (by omega)
      rw [this]
      have hcast : ((hrs * 60 - 1 - (hrs * 60 - 1) : Nat) : Int) = 0 := by
        omega
      rw [hcast]
      simp

/-- C10 witness: at hour parameter "0" (non-positive) the sanitized value
is 1, and the single-hour history has 60 entries ending at the current
minute bucket of `nowUnix = 120`. -/
theorem handleDeliveryStats_spec_witness :
    sanitizeHours (fun _ => some 0) "0" = 1 ∧
    (GetDeliveryStats (fun _ => 0) 120 1).history.length = 60 ∧
    ((GetDeliveryStats (fun _ => 0) 120 1).history[59]?).map
      DeliveryStats.timestamp = some 120 := by
  have hspec := handleDeliveryStats_spec (fun _ => 0) (fun _ => some 0) 120 "0"
  refine ⟨hspec.2.2.2.1 0 rfl (Or.inl le_rfl), (hspec.2.2.2.2.2 1).1, ?_⟩
  have := (hspec.2.2.2.2.2 1).2.2.2 le_rfl
  simpa using this

end ActivityRelay
